import Mathlib

/-! Model overview.
Shallow embedding of the brang change-detection engine
(`brang/change_checker.py`, `brang/database.py`) and proofs about it.

Strings are modelled by Lean `String`; the character-level helpers below
reimplement the Python string operations used by the source
(`str.replace` with the single-character needle `<`, `str.split` on a
single separator character, `int()` on decimal digit strings) as
structural recursions on `List Char`, so that all definitions evaluate
inside the kernel.

Wall-clock instants (`datetime.datetime.now()`) are modelled by `Nat`.
Exceptions are modelled by `Except String` / `Option`: `RequestError`
and `IndexError` become `Except.error` values that propagate, exactly
where the source lets them propagate, and `SiteChangeNotFoundException`
becomes the `none` branch of `get_latest_sitechange`.
-/

namespace Brang

/-- SHA-224 hex digest of the UTF-8 encoding of `text`
(`hashlib.sha224(text.encode('utf-8')).hexdigest()` in
`create_fingerprint`, change_checker.py lines 20-28).  The digest is a
pure deterministic function of the text (equal input gives equal
output) and, being a cryptographic hash, is treated as collision-free
on the inputs under consideration; every observable behaviour of the
checker depends on the digest only through equality tests, so the hash
is modelled as the identity on the hashed content. -/
def create_fingerprint (text : String) : String :=
  text

/-- `text.replace('<', '\n<')` for the one-character needle `<`:
inserts a line break immediately before every `<`. -/
def insertLineBreaks : List Char → List Char
  | [] => []
  | c :: rest =>
    if c = '<' then '\n' :: c :: insertLineBreaks rest
    else c :: insertLineBreaks rest

/-- Python `str.split(sep)` for a one-character separator: splits on
every occurrence of `sep`, keeping empty pieces, and yields `[""]` on
the empty string. -/
def splitOnChar (sep : Char) : List Char → List (List Char)
  | [] => [[]]
  | c :: rest =>
    match splitOnChar sep rest with
    | [] => [[]]
    | h :: t => if c = sep then [] :: h :: t else (c :: h) :: t

/-- `HfcInvarianceCheckStrategy.transform` (change_checker.py lines
102-109): `text.replace('<', '\n<').split('\n')`. -/
def transform (text : String) : List String :=
  (splitOnChar '\n' (insertLineBreaks text.data)).map String.mk

/-- Python `int(entry)` on the decimal digit strings produced by
`create_pattern` (the only pattern entries the system ever stores).
Python's behaviour on other strings (`ValueError`, or negative-index
deletion for strings like `"-1"`) is outside the model, as no stored
pattern ever contains them. -/
def parseNat (l : List Char) : Nat :=
  l.foldl (fun acc c => 10 * acc + (c.toNat - 48)) 0

/-- Python `del t_list[i]` for a non-negative index: removes the
element at position `i`, raising `IndexError` (modelled as `none`)
when `i` is out of range. -/
def del_at (l : List String) (i : Nat) : Option (List String) :=
  if i < l.length then some (l.eraseIdx i) else none

/-- `HfcInvarianceCheckStrategy.apply_pattern` (change_checker.py
lines 111-128): splits the pattern string on `,`, reverses the entry
list, deletes the indexed lines from `transform text` in that
(descending) order skipping empty entries, rejoins the remainder with
`''.join`, and fingerprints it.  `none` models an `IndexError` escaping
from one of the deletions. -/
def apply_pattern (pattern : String) (text : String) : Option String :=
  let p := (splitOnChar ',' pattern.data).reverse
  let t_list := transform text
  (p.foldlM
      (fun t_list entry =>
        if entry = ([] : List Char) then some t_list
        else del_at t_list (parseNat entry))
      t_list).map
    (fun t_list => create_fingerprint (String.join t_list))

/-- The ascending list of positions at which two transformed texts
differ: `[i for i in range(len(t_list_1)) if t_list_1[i] != t_list_2[i]]`. -/
def diffIndices (l1 l2 : List String) : List Nat :=
  (List.range l1.length).filter (fun i => decide (l1.get? i ≠ l2.get? i))

/-- `','.join([str(x) for x in pattern])`. -/
def patternToString (p : List Nat) : String :=
  String.intercalate "," (p.map Nat.repr)

/-- `HfcInvarianceCheckStrategy.create_pattern` (change_checker.py
lines 130-146): walks `i` over `range(len(t_list_1))` comparing
`t_list_1[i] != t_list_2[i]` and joins the differing indices with `,`.
The source loop raises `IndexError` (modelled as `none`) exactly when
the second transformed list is shorter than the first, since `i` then
reaches `len(t_list_2)`. -/
def create_pattern (site_t1_text site_t2_text : String) : Option String :=
  let t_list_1 := transform site_t1_text
  let t_list_2 := transform site_t2_text
  if t_list_1.length ≤ t_list_2.length then
    some (patternToString (diffIndices t_list_1 t_list_2))
  else none

/-- The pattern entries a stored pattern string denotes: split on `,`,
drop empty entries, parse each as a decimal number — the index list
that `apply_pattern`'s deletion loop works through (in reverse). -/
def parsedPattern (s : String) : List Nat :=
  ((splitOnChar ',' s.data).filter (fun e => decide (e ≠ ([] : List Char)))).map parseNat

/-! ## Database model (database.py) -/

/-- A `Site` row: identity and unique url (database.py lines 41-47). -/
structure Site where
  id : Nat
  url : String
deriving DecidableEq, Repr

/-- A `SiteChange` row (database.py lines 50-58). -/
structure SiteChangeRow where
  site_id : Nat
  fingerprint : String
  pattern : String
  check_timestamp : Nat
deriving DecidableEq, Repr

/-- `SQLiteDatabase.insert_site_change_entry` (database.py lines
234-251).  The Python signature declares
`timestamp: datetime.datetime = datetime.datetime.now()`: the default
expression is evaluated once, when the class body is evaluated, so a
call that omits the argument stamps the row with that single frozen
instant, modelled here by `tsDefault`.  `timestamp = none` models an
omitted argument, `timestamp = some t` an explicit one.  The table is
append-only for this call. -/
def insert_site_change_entry (tsDefault : Nat) (db : List SiteChangeRow)
    (site : Site) (fingerprint : String) (pattern : String)
    (timestamp : Option Nat) : List SiteChangeRow :=
  db ++ [{ site_id := site.id
           fingerprint := fingerprint
           pattern := pattern
           check_timestamp := timestamp.getD tsDefault }]

/-- `SQLiteDatabase.get_latest_sitechange` (database.py lines
253-270): the site's rows ordered by `check_timestamp` descending,
first row taken; rows with equal timestamps keep table (insertion)
order, so ties resolve to the earliest-inserted row.  `none` models
`SiteChangeNotFoundException` (no row for the site). -/
def get_latest_sitechange (db : List SiteChangeRow) (site : Site) :
    Option SiteChangeRow :=
  (db.filter (fun r => r.site_id == site.id)).foldl
    (fun acc r =>
      match acc with
      | none => some r
      | some best =>
        if best.check_timestamp < r.check_timestamp then some r else some best)
    none

/-! ## Fetch model (request_site, change_checker.py lines 31-46) -/

/-- What the network produced for one `requests.get(url)`: either the
transport failed, or a response with a status code and body text came
back. -/
inductive FetchOutcome where
  | transportError (msg : String)
  | response (status : Nat) (text : String)
deriving DecidableEq, Repr

/-- `request_site` (change_checker.py lines 31-46): returns `r.text`
when the status code is 200; raises `RequestError` on any other status
code or on a transport failure.  (The status-code `RequestError` raised
inside the `try` block is caught by the blanket `except` and re-raised
wrapped; only the message text changes, which the model reflects in the
error strings.) -/
def request_site (site : Site) (outcome : FetchOutcome) : Except String String :=
  match outcome with
  | .transportError msg =>
    .error ("Request for url=" ++ site.url ++ " failed. Original exception: " ++ msg)
  | .response status text =>
    if status ≠ 200 then
      .error ("Request for url=" ++ site.url ++ " failed. Original exception: "
        ++ "RequestError:Invalid http code: " ++ Nat.repr status ++ ".")
    else
      .ok text

/-- One fetch against the head of the modelled stream of network
outcomes (each successive `requests.get` consumes the next outcome).
An exhausted stream is a model artifact and never occurs in the runs
the theorems below consider. -/
def take_fetch (site : Site) :
    List FetchOutcome → Except String (String × List FetchOutcome)
  | [] => .error "model: no further network outcome"
  | o :: rest =>
    match request_site site o with
    | .error e => .error e
    | .ok t => .ok (t, rest)

/-- Lifts an `Option` produced by `apply_pattern` / `create_pattern`
into the exception monad: `none` is Python's `IndexError`, which no
handler in change_checker.py catches. -/
def liftIndex (o : Option α) : Except String α :=
  match o with
  | none => .error "IndexError: list assignment index out of range"
  | some a => .ok a

/-! ## Strategies (change_checker.py) -/

/-- `NaiveCheckStrategy.change_check` (change_checker.py lines 70-95).
`now` is the wall-clock instant `datetime.datetime.now()` read at line
80 and passed explicitly to the insert.  Returns the reported flag, the
database after the call, and the unconsumed network outcomes. -/
def naive_change_check (tsDefault : Nat) (db : List SiteChangeRow)
    (site : Site) (fetches : List FetchOutcome) (now : Nat) :
    Except String (Bool × List SiteChangeRow × List FetchOutcome) :=
  match take_fetch site fetches with
  | .error e => .error e
  | .ok (text, fetches) =>
    let current_fingerprint := create_fingerprint text
    match get_latest_sitechange db site with
    | some latest_site_change =>
      if current_fingerprint = latest_site_change.fingerprint then
        .ok (false, db, fetches)
      else
        .ok (true,
          insert_site_change_entry tsDefault db site current_fingerprint "" (some now),
          fetches)
    | none =>
      .ok (false,
        insert_site_change_entry tsDefault db site current_fingerprint "" (some now),
        fetches)

/-- `HfcInvarianceCheckStrategy.change_check` (change_checker.py lines
148-207).  `now` is the wall-clock instant of the call; the source
never reads a clock here and passes no timestamp to
`insert_site_change_entry`, so the inserts below carry `none` and the
rows get the frozen default `tsDefault`.  Only
`SiteChangeNotFoundException` is caught (line 193): a `RequestError` or
`IndexError` propagates to the caller as `.error`. -/
def hfc_change_check (tsDefault : Nat) (db : List SiteChangeRow)
    (site : Site) (fetches : List FetchOutcome) (now : Nat) :
    Except String (Bool × List SiteChangeRow × List FetchOutcome) :=
  match get_latest_sitechange db site with
  | some latest_site_change =>
    let latest_fingerprint := latest_site_change.fingerprint
    -- `if latest_site_change.pattern:` — an empty (falsy) pattern column
    -- leaves latest_pattern at the initial "".
    let latest_pattern :=
      if latest_site_change.pattern = "" then "" else latest_site_change.pattern
    match take_fetch site fetches with
    | .error e => .error e
    | .ok (current_text, fetches) =>
      match liftIndex (apply_pattern latest_pattern current_text) with
      | .error e => .error e
      | .ok current_fingerprint =>
        if current_fingerprint = latest_fingerprint then
          .ok (false, db, fetches)   -- nothing changed, nothing written
        else
          -- update detected: confirm the pattern with a second sample
          match take_fetch site fetches with
          | .error e => .error e
          | .ok (check_text, fetches) =>
            match liftIndex (apply_pattern latest_pattern check_text) with
            | .error e => .error e
            | .ok check_fingerprint =>
              if check_fingerprint ≠ current_fingerprint then
                -- pattern not valid: recreate it and the fingerprint
                match liftIndex (create_pattern current_text check_text) with
                | .error e => .error e
                | .ok current_pattern =>
                  match liftIndex (apply_pattern current_pattern current_text) with
                  | .error e => .error e
                  | .ok new_fingerprint =>
                    .ok (true,
                      insert_site_change_entry tsDefault db site
                        new_fingerprint current_pattern none,
                      fetches)
              else
                -- pattern still valid
                .ok (true,
                  insert_site_change_entry tsDefault db site
                    current_fingerprint latest_pattern none,
                  fetches)
  | none =>
    -- SiteChangeNotFoundException: create a new HFC fingerprint
    match take_fetch site fetches with
    | .error e => .error e
    | .ok (text_t1, fetches) =>
      match take_fetch site fetches with
      | .error e => .error e
      | .ok (text_t2, fetches) =>
        match liftIndex (create_pattern text_t1 text_t2) with
        | .error e => .error e
        | .ok current_pattern =>
          match liftIndex (apply_pattern current_pattern text_t1) with
          | .error e => .error e
          | .ok current_fingerprint =>
            .ok (false,
              insert_site_change_entry tsDefault db site
                current_fingerprint current_pattern none,
              fetches)

/-- `ChangeChecker.check_site` (change_checker.py lines 226-234) with
the default strategy (`HfcInvarianceCheckStrategy`, line 222). -/
def check_site (tsDefault : Nat) (db : List SiteChangeRow) (site : Site)
    (fetches : List FetchOutcome) (now : Nat) :
    Except String (Bool × List SiteChangeRow × List FetchOutcome) :=
  hfc_change_check tsDefault db site fetches now

/-- The site loop of `ChangeChecker.check_all_sites` (change_checker.py
lines 244-251): processes the sites in order, accumulating the
notification lines; there is no exception handler around `check_site`,
so the first `.error` aborts the remaining iterations. -/
def check_sites_loop (tsDefault : Nat) (db : List SiteChangeRow)
    (sites : List Site) (fetches : List FetchOutcome) (now : Nat)
    (msg_lines : List String) :
    Except String (List String × List SiteChangeRow × List FetchOutcome) :=
  match sites with
  | [] => .ok (msg_lines, db, fetches)
  | site :: rest =>
    match check_site tsDefault db site fetches now with
    | .error e => .error e
    | .ok (update_detected, db, fetches) =>
      check_sites_loop tsDefault db rest fetches now
        (if update_detected then msg_lines ++ ["* " ++ site.url] else msg_lines)

/-- `ChangeChecker.check_all_sites` (change_checker.py lines 236-254)
over the site list the repository returned.  The returned message lines
are the notification payload (`send_email` is invoked on them exactly
when they are non-empty; the email transport itself is outside the
model). -/
def check_all_sites (tsDefault : Nat) (db : List SiteChangeRow)
    (sites : List Site) (fetches : List FetchOutcome) (now : Nat) :
    Except String (List String × List SiteChangeRow × List FetchOutcome) :=
  check_sites_loop tsDefault db sites fetches now []

/-- True exactly when the call raised (the exception reached the
caller). -/
def isError : Except String α → Bool
  | .error _ => true
  | .ok _ => false

/-! ## Spec-side deletion semantics

`removeIdxs t p` removes from `t` exactly the elements whose position
is listed in `p` (positions counted in the original `t`), keeping the
order of the survivors — the "remove the lines at the pattern's
indices" of the spec. -/

/-- Shifts a position set down across one consumed head element:
position `i` in the tail corresponds to position `i + 1` originally. -/
def shiftDown (p : List Nat) : List Nat :=
  p.filterMap (fun n => match n with | 0 => none | k + 1 => some k)

/-- Removes from `t` the elements whose position appears in `p`. -/
def removeIdxs : List String → List Nat → List String
  | [], _ => []
  | a :: t, p =>
    if 0 ∈ p then removeIdxs t (shiftDown p)
    else a :: removeIdxs t (shiftDown p)

/-- Folding Python's `del` over an index list, left to right. -/
def del_list (t : List String) (idxs : List Nat) : Option (List String) :=
  idxs.foldlM del_at t

deriving instance DecidableEq for Except

/-! ## Helper lemmas -/

theorem mem_shiftDown {p : List Nat} {i : Nat} : i ∈ shiftDown p ↔ i + 1 ∈ p := by
  simp only [shiftDown, List.mem_filterMap]
  constructor
  · rintro ⟨a, ha, hfa⟩
    match a, hfa with
    | k + 1, hfa =>
      cases hfa
      exact ha
  · intro h
    exact ⟨i + 1, h, rfl⟩

theorem shiftDown_nil : shiftDown [] = [] := rfl

theorem shiftDown_cons_zero (p : List Nat) : shiftDown (0 :: p) = shiftDown p := rfl

theorem shiftDown_cons_succ (k : Nat) (p : List Nat) :
    shiftDown ((k + 1) :: p) = k :: shiftDown p := rfl

theorem removeIdxs_cons (a : String) (t : List String) (p : List Nat) :
    removeIdxs (a :: t) p
      = if 0 ∈ p then removeIdxs t (shiftDown p) else a :: removeIdxs t (shiftDown p) := rfl

theorem removeIdxs_nil : ∀ t : List String, removeIdxs t [] = t
  | [] => rfl
  | a :: t => by
    simp only [removeIdxs, shiftDown, List.filterMap_nil, List.not_mem_nil, if_false]
    rw [removeIdxs_nil t]

theorem removeIdxs_congr : ∀ (t : List String) (p q : List Nat),
    (∀ i, i ∈ p ↔ i ∈ q) → removeIdxs t p = removeIdxs t q
  | [], _, _, _ => rfl
  | a :: t, p, q, h => by
    have hs : ∀ i, i ∈ shiftDown p ↔ i ∈ shiftDown q := by
      intro i
      rw [mem_shiftDown, mem_shiftDown]
      exact h (i + 1)
    simp only [removeIdxs]
    rw [removeIdxs_congr t (shiftDown p) (shiftDown q) hs]
    by_cases h0 : 0 ∈ p
    · rw [if_pos h0, if_pos ((h 0).mp h0)]
    · rw [if_neg h0, if_neg (fun hq => h0 ((h 0).mpr hq))]

theorem eraseIdx_removeIdxs : ∀ (t : List String) (m : Nat) (p : List Nat),
    (∀ i ∈ p, i < m) → removeIdxs (t.eraseIdx m) p = removeIdxs t (m :: p)
  | [], m, p, _ => by
    simp [List.eraseIdx, removeIdxs]
  | a :: t, 0, p, h => by
    have hp : p = [] := by
      cases p with
      | nil => rfl
      | cons x xs => exact absurd (h x (List.mem_cons_self x xs)) (Nat.not_lt_zero x)
    subst hp
    rw [List.eraseIdx_cons_zero, removeIdxs_cons]
    rw [if_pos (List.mem_singleton.mpr rfl), shiftDown_cons_zero, shiftDown_nil]
  | a :: t, m + 1, p, h => by
    have hstep : ∀ i ∈ shiftDown p, i < m := by
      intro i hi
      have := h (i + 1) (mem_shiftDown.mp hi)
      omega
    have hzero : (0 ∈ (m + 1) :: p) ↔ (0 ∈ p) := by
      simp [List.mem_cons]
    rw [List.eraseIdx_cons_succ, removeIdxs_cons, removeIdxs_cons, shiftDown_cons_succ]
    rw [eraseIdx_removeIdxs t m (shiftDown p) hstep]
    by_cases h0 : 0 ∈ p
    · rw [if_pos h0, if_pos (hzero.mpr h0)]
    · rw [if_neg h0, if_neg (fun hc => h0 (hzero.mp hc))]

theorem del_at_eq {t : List String} {i : Nat} (h : i < t.length) :
    del_at t i = some (t.eraseIdx i) := by
  simp [del_at, h]

theorem del_list_desc : ∀ (d : List Nat) (t : List String),
    List.Pairwise (· > ·) d → (∀ i ∈ d, i < t.length) →
    del_list t d = some (removeIdxs t d)
  | [], t, _, _ => by
    rw [removeIdxs_nil]
    rfl
  | m :: d, t, hp, hlt => by
    have hm : m < t.length := hlt m (List.mem_cons_self m d)
    have hpc := List.pairwise_cons.mp hp
    have hlt' : ∀ i ∈ d, i < (t.eraseIdx m).length := by
      intro i hi
      rw [List.length_eraseIdx]
      simp only [hm, if_true]
      have h1 : m > i := hpc.1 i hi
      omega
    have ih := del_list_desc d (t.eraseIdx m) hpc.2 hlt'
    simp only [del_list, List.foldlM_cons, del_at_eq hm]
    show del_list (t.eraseIdx m) d = _
    rw [ih, eraseIdx_removeIdxs t m d (fun i hi => hpc.1 i hi)]

theorem del_list_reverse {p : List Nat} {t : List String}
    (hasc : List.Pairwise (· < ·) p) (hlt : ∀ i ∈ p, i < t.length) :
    del_list t p.reverse = some (removeIdxs t p) := by
  have hdesc : List.Pairwise (· > ·) p.reverse := by
    rw [List.pairwise_reverse]
    exact hasc
  have hlt' : ∀ i ∈ p.reverse, i < t.length := by
    intro i hi
    exact hlt i (List.mem_reverse.mp hi)
  rw [del_list_desc p.reverse t hdesc hlt']
  rw [removeIdxs_congr t p.reverse p (fun i => List.mem_reverse)]

theorem foldl_skip_eq_del_list : ∀ (entries : List (List Char)) (t : List String),
    entries.foldlM
      (fun t_list entry =>
        if entry = ([] : List Char) then some t_list
        else del_at t_list (parseNat entry)) t
    = del_list t ((entries.filter (fun e => decide (e ≠ ([] : List Char)))).map parseNat)
  | [], t => rfl
  | e :: es, t => by
    by_cases he : e = ([] : List Char)
    · subst he
      simp only [List.foldlM_cons, if_pos rfl, List.filter_cons]
      have : (decide (([] : List Char) ≠ ([] : List Char))) = false := by decide
      rw [this]
      show (es.foldlM _ t) = _
      exact foldl_skip_eq_del_list es t
    · simp only [List.foldlM_cons, if_neg he, List.filter_cons, decide_eq_true_eq]
      rw [if_pos he]
      simp only [List.map_cons, del_list, List.foldlM_cons]
      cases hda : del_at t (parseNat e) with
      | none => rfl
      | some t' =>
        show (es.foldlM _ t') = (List.foldlM del_at t' _)
        exact foldl_skip_eq_del_list es t'

theorem apply_pattern_char (s T : String) :
    apply_pattern s T
      = (del_list (transform T) ((parsedPattern s).reverse)).map
          (fun t => create_fingerprint (String.join t)) := by
  simp only [apply_pattern, parsedPattern]
  rw [foldl_skip_eq_del_list]
  rw [List.filter_reverse, List.map_reverse]

/-! ## Claims -/

/-- C5 (counterexample): the claim `apply_pattern('', T) ==
create_fingerprint(T)` fails at `T = "a\nb"`: the empty pattern deletes
nothing, but `apply_pattern` rejoins the transformed lines with
`''.join`, which drops the newline, so the digest hashes `"ab"` and not
`"a\nb"`. -/
theorem C5_counterexample :
    apply_pattern "" "a\nb" ≠ some (create_fingerprint "a\nb") := by
  decide

/-- C5 (amended): for every text `T`, applying the empty pattern yields
the fingerprint of the full transformed content rejoined with
`''.join` — the full content with no exclusions, but with the text's
newline characters dropped by the rejoin; it equals
`create_fingerprint(T)` itself only when that rejoin is lossless. -/
theorem C5_empty_pattern_full_content (T : String) :
    apply_pattern "" T = some (create_fingerprint (String.join (transform T))) := rfl

/-- C6: for every ascending in-range index list `p` (denoted by the
stored pattern string `s`) and every text `T`, `apply_pattern`
fingerprints exactly the rejoined sequence obtained from
`transform T` by removing the lines at the indices in `p` — the
reversed (descending) deletion order makes the sequential `del` calls
remove exactly the originally-indexed lines. -/
theorem C6_apply_pattern_removes_pattern_indices (s T : String) (p : List Nat)
    (hparse : parsedPattern s = p)
    (hasc : List.Pairwise (· < ·) p)
    (hrange : ∀ i ∈ p, i < (transform T).length) :
    apply_pattern s T
      = some (create_fingerprint (String.join (removeIdxs (transform T) p))) := by
  rw [apply_pattern_char, hparse, del_list_reverse hasc hrange]
  rfl

/-- Witness for C6 at the pattern `"0,2"` on `"x<a><b>"` (transformed
lines `["x", "<a>", "<b>"]`; removing indices 0 and 2 leaves
`["<a>"]`). -/
theorem C6_witness :
    apply_pattern "0,2" "x<a><b>"
      = some (create_fingerprint (String.join (removeIdxs (transform "x<a><b>") [0, 2]))) :=
  C6_apply_pattern_removes_pattern_indices "0,2" "x<a><b>" [0, 2]
    (by decide) (by decide) (by decide)

/-- C7: when the two transformed texts have equal length,
`create_pattern` returns exactly the ascending list of positions where
they differ, and `create_pattern(T, T)` is the empty pattern. -/
theorem C7_create_pattern_diff_indices (A B : String) :
    ((transform A).length = (transform B).length →
      create_pattern A B
          = some (patternToString (diffIndices (transform A) (transform B)))
        ∧ List.Pairwise (· < ·) (diffIndices (transform A) (transform B))
        ∧ ∀ i, i ∈ diffIndices (transform A) (transform B)
            ↔ i < (transform A).length ∧ (transform A).get? i ≠ (transform B).get? i)
    ∧ create_pattern A A = some "" := by
  constructor
  · intro hlen
    refine ⟨?_, ?_, ?_⟩
    · simp [create_pattern, hlen.le]
    · exact List.Pairwise.sublist (List.filter_sublist _) (List.pairwise_lt_range _)
    · intro i
      simp [diffIndices, List.mem_filter, List.mem_range]
  · have h1 : diffIndices (transform A) (transform A) = [] := by
      simp [diffIndices]
    simp [create_pattern, h1, patternToString, String.intercalate]

/-- Witness for C7 at `A = "x<a>"`, `B = "x<b>"` (equal transformed
length 2, single differing position 1). -/
theorem C7_witness :
    create_pattern "x<a>" "x<b>"
        = some (patternToString (diffIndices (transform "x<a>") (transform "x<b>")))
    ∧ create_pattern "y" "y" = some "" :=
  ⟨((C7_create_pattern_diff_indices "x<a>" "x<b>").1 (by decide)).1,
    (C7_create_pattern_diff_indices "y" "z").2⟩

theorem take_fetch_ok (site : Site) (t : String) (rest : List FetchOutcome) :
    take_fetch site (.response 200 t :: rest) = .ok (t, rest) := rfl

theorem pattern_if_self (p : String) : (if p = "" then "" else p) = p := by
  by_cases h : p = "" <;> simp [h]

/-- C3: with a prior `SiteChange` whose pattern yields a candidate
digest different from the stored fingerprint, the strategy fetches a
confirmation sample; an equal confirmation digest persists
`(candidate, storedPattern)`, a differing one persists the relearned
`(applyPattern(newPattern, sample), newPattern)` with `newPattern =
createPattern(sample, confirmationSample)`; each branch appends exactly
one row and returns `true`. -/
theorem C3_suspect_confirm_or_relearn (tsDefault : Nat) (db : List SiteChangeRow)
    (site : Site) (r : SiteChangeRow) (s c : String) (rest : List FetchOutcome)
    (now : Nat) (cand : String)
    (hlatest : get_latest_sitechange db site = some r)
    (hcand : apply_pattern r.pattern s = some cand)
    (hdiff : cand ≠ r.fingerprint) :
    (apply_pattern r.pattern c = some cand →
      hfc_change_check tsDefault db site
          (.response 200 s :: .response 200 c :: rest) now
        = .ok (true, db ++ [⟨site.id, cand, r.pattern, tsDefault⟩], rest))
    ∧ (∀ confirm newP newFp,
        apply_pattern r.pattern c = some confirm → confirm ≠ cand →
        create_pattern s c = some newP → apply_pattern newP s = some newFp →
        hfc_change_check tsDefault db site
            (.response 200 s :: .response 200 c :: rest) now
          = .ok (true, db ++ [⟨site.id, newFp, newP, tsDefault⟩], rest)) := by
  constructor
  · intro hconfirm
    simp only [hfc_change_check, hlatest, pattern_if_self, take_fetch_ok,
      hcand, liftIndex, if_neg hdiff, hconfirm]
    simp [insert_site_change_entry, Option.getD]
  · intro confirm newP newFp hconfirm hne hnewP hnewFp
    simp only [hfc_change_check, hlatest, pattern_if_self, take_fetch_ok,
      hcand, liftIndex, if_neg hdiff, hconfirm, hnewP, hnewFp, if_pos hne]
    simp [insert_site_change_entry, Option.getD]

/-- Witness for C3: a site whose stored row has the empty pattern and
fingerprint `"old"`; samples `"new"` twice exercise the confirmed
branch, samples `"new"`, `"other"` the relearn branch (both transforms
are single lines, so the relearned pattern is `"0"` and the relearned
fingerprint hashes the empty remainder). -/
theorem C3_witness :
    hfc_change_check 0 [⟨1, "old", "", 0⟩] ⟨1, "u"⟩
        [.response 200 "new", .response 200 "new"] 9
      = .ok (true, [⟨1, "old", "", 0⟩, ⟨1, create_fingerprint "new", "", 0⟩], [])
    ∧ hfc_change_check 0 [⟨1, "old", "", 0⟩] ⟨1, "u"⟩
        [.response 200 "new", .response 200 "other"] 9
      = .ok (true, [⟨1, "old", "", 0⟩, ⟨1, create_fingerprint "", "0", 0⟩], []) :=
  ⟨(C3_suspect_confirm_or_relearn 0 [⟨1, "old", "", 0⟩] ⟨1, "u"⟩ ⟨1, "old", "", 0⟩
      "new" "new" [] 9 (create_fingerprint "new") (by decide) (by decide) (by decide)).1
      (by decide),
    (C3_suspect_confirm_or_relearn 0 [⟨1, "old", "", 0⟩] ⟨1, "u"⟩ ⟨1, "old", "", 0⟩
      "new" "other" [] 9 (create_fingerprint "new") (by decide) (by decide) (by decide)).2
      (create_fingerprint "other") "0" (create_fingerprint "")
      (by decide) (by decide) (by decide) (by decide)⟩

/-- C4 (counterexample): the claim's "with timestamp now" is false.  A
bootstrap run at wall-clock instant `5` against a database whose
frozen default-argument instant is `0` writes the row with
`check_timestamp = 0`, not `5`: `insert_site_change_entry`'s Python
default `timestamp=datetime.datetime.now()` was evaluated once when
the class body was evaluated, and the invariance strategy omits the
argument. -/
theorem C4_counterexample :
    hfc_change_check 0 [] ⟨1, "u"⟩ [.response 200 "a", .response 200 "a"] 5
        = .ok (false, [⟨1, create_fingerprint "a", "", 0⟩], [])
    ∧ hfc_change_check 0 [] ⟨1, "u"⟩ [.response 200 "a", .response 200 "a"] 5
        ≠ .ok (false, [⟨1, create_fingerprint "a", "", 5⟩], []) := by
  constructor
  · rfl
  · decide

/-- C4 (amended): for a site with no prior `SiteChange`, the strategy
fetches two samples, persists exactly one row whose pattern is
`createPattern(sample1, sample2)` and whose fingerprint is
`applyPattern(thatPattern, sample1)`, and reports no change — but the
row's timestamp is the frozen default instant captured when the
database class body was evaluated (`tsDefault`), not the time `now` of
the call. -/
theorem C4_bootstrap (tsDefault : Nat) (db : List SiteChangeRow) (site : Site)
    (s1 s2 : String) (rest : List FetchOutcome) (now : Nat) (p fp : String)
    (hnone : get_latest_sitechange db site = none)
    (hpat : create_pattern s1 s2 = some p)
    (hfp : apply_pattern p s1 = some fp) :
    hfc_change_check tsDefault db site
        (.response 200 s1 :: .response 200 s2 :: rest) now
      = .ok (false, db ++ [⟨site.id, fp, p, tsDefault⟩], rest) := by
  simp only [hfc_change_check, hnone, take_fetch_ok, liftIndex, hpat, hfp]
  simp [insert_site_change_entry, Option.getD]

/-- Witness for C4 (amended): an empty database bootstraps from two
identical samples, learning the empty pattern. -/
theorem C4_witness :
    hfc_change_check 3 [] ⟨2, "w"⟩ [.response 200 "a", .response 200 "a"] 8
      = .ok (false, [⟨2, create_fingerprint "a", "", 3⟩], []) :=
  C4_bootstrap 3 [] ⟨2, "w"⟩ "a" "a" [] 8 "" (create_fingerprint "a")
    (by decide) (by decide) (by decide)

/-- Every successful `HfcInvarianceCheckStrategy.change_check` leaves
the table unchanged or appends exactly one row, and any appended row
belongs to the checked site and carries the frozen default timestamp
(the strategy always omits the timestamp argument). -/
theorem hfc_change_check_ok_shape (tsDefault : Nat) (db : List SiteChangeRow)
    (site : Site) (fetches : List FetchOutcome) (now : Nat) (b : Bool)
    (db' : List SiteChangeRow) (rest : List FetchOutcome)
    (h : hfc_change_check tsDefault db site fetches now = .ok (b, db', rest)) :
    db' = db ∨ ∃ fp pat, db' = db ++ [⟨site.id, fp, pat, tsDefault⟩] := by
  simp only [hfc_change_check] at h
  repeat' split at h
  any_goals exact Except.noConfusion h
  all_goals
    simp only [Except.ok.injEq, Prod.mk.injEq, insert_site_change_entry,
      Option.getD_none] at h
  all_goals obtain ⟨h1, h2, h3⟩ := h
  all_goals first
    | (left; exact h2.symm)
    | (right; exact ⟨_, _, h2.symm⟩)

/-- Every successful `NaiveCheckStrategy.change_check` leaves the table
unchanged or appends exactly one row, stamped with the explicitly
passed call-time instant. -/
theorem naive_change_check_ok_shape (tsDefault : Nat) (db : List SiteChangeRow)
    (site : Site) (fetches : List FetchOutcome) (now : Nat) (b : Bool)
    (db' : List SiteChangeRow) (rest : List FetchOutcome)
    (h : naive_change_check tsDefault db site fetches now = .ok (b, db', rest)) :
    db' = db ∨ ∃ fp, db' = db ++ [⟨site.id, fp, "", now⟩] := by
  simp only [naive_change_check] at h
  repeat' split at h
  any_goals exact Except.noConfusion h
  all_goals
    simp only [Except.ok.injEq, Prod.mk.injEq, insert_site_change_entry,
      Option.getD_some] at h
  all_goals obtain ⟨h1, h2, h3⟩ := h
  all_goals first
    | (left; exact h2.symm)
    | (right; exact ⟨_, h2.symm⟩)

/-- C8: a successfully completed `change_check` call — under either
strategy — has written exactly one new `SiteChange` row or exactly
none; it never writes two rows for one observation.  (The table is
append-only during the call, so the final table is the initial one,
possibly extended by a single row.) -/
theorem C8_at_most_one_row (tsDefault : Nat) (db : List SiteChangeRow)
    (site : Site) (fetches : List FetchOutcome) (now : Nat) :
    (∀ b db' rest,
      hfc_change_check tsDefault db site fetches now = .ok (b, db', rest) →
      db' = db ∨ ∃ row, db' = db ++ [row])
    ∧ (∀ b db' rest,
      naive_change_check tsDefault db site fetches now = .ok (b, db', rest) →
      db' = db ∨ ∃ row, db' = db ++ [row]) := by
  constructor
  · intro b db' rest h
    rcases hfc_change_check_ok_shape tsDefault db site fetches now b db' rest h with
      h1 | ⟨fp, pat, h2⟩
    · exact Or.inl h1
    · exact Or.inr ⟨_, h2⟩
  · intro b db' rest h
    rcases naive_change_check_ok_shape tsDefault db site fetches now b db' rest h with
      h1 | ⟨fp, h2⟩
    · exact Or.inl h1
    · exact Or.inr ⟨_, h2⟩

/-- Witness for C8: a concrete bootstrap run (which appends one row). -/
theorem C8_witness :
    ([⟨1, create_fingerprint "a", "", 0⟩] : List SiteChangeRow) = []
    ∨ ∃ row, ([⟨1, create_fingerprint "a", "", 0⟩] : List SiteChangeRow) = [] ++ [row] :=
  (C8_at_most_one_row 0 [] ⟨1, "u"⟩ [.response 200 "a", .response 200 "a"] 5).1
    false [⟨1, create_fingerprint "a", "", 0⟩] [] rfl

/-- C10: a call of `insert_site_change_entry` that omits the timestamp
argument stamps the row with the one frozen instant `tsDefault` that
the Python default expression captured when the class body was
evaluated; the invariance strategy never reads a clock (its result is
independent of the call instant) and every row it writes carries
`tsDefault`; consequently the rows of two omitted-timestamp writes tie
on `check_timestamp`, and the max-timestamp "latest change" query
returns the first-written of the two rows, not the last-written. -/
theorem C10_frozen_default_timestamp (tsDefault now1 now2 : Nat) :
    (∀ db site fp pat,
      insert_site_change_entry tsDefault db site fp pat none
        = db ++ [⟨site.id, fp, pat, tsDefault⟩])
    ∧ (∀ db site fetches,
      hfc_change_check tsDefault db site fetches now1
        = hfc_change_check tsDefault db site fetches now2)
    ∧ (∀ db site fetches b db' rest,
      hfc_change_check tsDefault db site fetches now1 = .ok (b, db', rest) →
      ∀ r ∈ db'.drop db.length, r.check_timestamp = tsDefault)
    ∧ (∀ site fp1 pat1 fp2 pat2,
      get_latest_sitechange
          (insert_site_change_entry tsDefault
            (insert_site_change_entry tsDefault [] site fp1 pat1 none)
            site fp2 pat2 none) site
        = some ⟨site.id, fp1, pat1, tsDefault⟩) := by
  refine ⟨?_, ?_, ?_, ?_⟩
  · intro db site fp pat
    simp [insert_site_change_entry]
  · intro db site fetches
    rfl
  · intro db site fetches b db' rest h r hr
    rcases hfc_change_check_ok_shape tsDefault db site fetches now1 b db' rest h with
      h1 | ⟨fp, pat, h2⟩
    · subst h1
      rw [List.drop_length] at hr
      exact absurd hr (List.not_mem_nil r)
    · subst h2
      rw [List.drop_left] at hr
      rw [List.mem_singleton.mp hr]
  · intro site fp1 pat1 fp2 pat2
    simp [insert_site_change_entry, get_latest_sitechange]

/-- Witness for C10: the row of a concrete bootstrap run at call
instant 5 against a database whose frozen default is 0 carries
timestamp 0. -/
theorem C10_witness :
    (⟨1, create_fingerprint "a", "", 0⟩ : SiteChangeRow).check_timestamp = 0 :=
  (C10_frozen_default_timestamp 0 5 7).2.2.1 [] ⟨1, "u"⟩
    [.response 200 "a", .response 200 "a"] false
    [⟨1, create_fingerprint "a", "", 0⟩] [] rfl
    ⟨1, create_fingerprint "a", "", 0⟩ (by decide)

/-- C1 (code evaluated at the failing input): `check_all_sites` has no
exception handler around the per-site check, so a transport failure
while checking the first of two sites propagates and aborts the batch
— the second site is never checked (no bootstrap row is written for
it), even though checking the second site alone on the remaining
network outcomes completes and writes its bootstrap row. -/
theorem C1_fetch_error_aborts_batch :
    isError (check_all_sites 0 [] [⟨1, "a"⟩, ⟨2, "b"⟩]
        [.transportError "connection refused",
          .response 200 "x", .response 200 "x"] 0) = true
    ∧ check_all_sites 0 [] [⟨2, "b"⟩]
        [.response 200 "x", .response 200 "x"] 0
      = .ok ([], [⟨2, create_fingerprint "x", "", 0⟩], []) :=
  ⟨rfl, rfl⟩

/-- C2 (code evaluated at the failing inputs): a structural mismatch
raises to the caller instead of relearning.  First conjunct: a stored
pattern (`"5"`) whose index is out of range for the fetched text's
transformed lines makes `change_check` propagate the `IndexError`.
Second conjunct: during pattern creation, a second sample with fewer
transformed lines than the first makes the bootstrap path propagate
the `IndexError` as well.  Neither run falls back to relearning or
reports a result. -/
theorem C2_index_fault_escapes :
    hfc_change_check 0 [⟨1, "f", "5", 0⟩] ⟨1, "u"⟩ [.response 200 "x"] 7
      = .error "IndexError: list assignment index out of range"
    ∧ hfc_change_check 0 [] ⟨1, "u"⟩
        [.response 200 "x<a><c>", .response 200 "x"] 7
      = .error "IndexError: list assignment index out of range" :=
  ⟨rfl, rfl⟩

/-- C9 (counterexample): status 201 is a success (2xx) code, but
`request_site` compares `r.status_code != 200` and raises
`RequestError`, so the body is not returned. -/
theorem C9_counterexample :
    (200 ≤ 201 ∧ 201 < 300)
    ∧ request_site ⟨1, "u"⟩ (.response 201 "ok") ≠ .ok "ok" := by
  constructor
  · decide
  · decide

/-- C9 (amended): `request_site` returns the body text exactly when
the HTTP response has status code 200 (not any 2xx code), and fails
with a `RequestError` exactly when the transport fails or the status
code differs from 200. -/
theorem C9_success_only_200 (site : Site) (status : Nat) (body msg : String) :
    (status = 200 → request_site site (.response status body) = .ok body)
    ∧ (status ≠ 200 → isError (request_site site (.response status body)) = true)
    ∧ isError (request_site site (.transportError msg)) = true
    ∧ (∀ t, request_site site (.response status body) = .ok t
        → status = 200 ∧ t = body) := by
  refine ⟨?_, ?_, rfl, ?_⟩
  · intro h
    subst h
    rfl
  · intro h
    simp [request_site, isError, h]
  · intro t h
    by_cases hs : status = 200
    · subst hs
      have h200 : request_site site (.response 200 body) = .ok body := rfl
      rw [h200] at h
      cases h
      exact ⟨rfl, rfl⟩
    · simp [request_site, hs] at h

/-- Witness for C9 (amended): status 200 returns the body, status 404
raises. -/
theorem C9_witness :
    request_site ⟨1, "u"⟩ (.response 200 "hello") = .ok "hello"
    ∧ isError (request_site ⟨1, "u"⟩ (.response 404 "nf")) = true :=
  ⟨(C9_success_only_200 ⟨1, "u"⟩ 200 "hello" "m").1 rfl,
    (C9_success_only_200 ⟨1, "u"⟩ 404 "nf" "m").2.1 (by decide)⟩

end Brang
